import Mathlib

/-!
Shallow embedding of the MPSC unbounded blocking channel from
`src/channel/src/lib.rs`, together with proofs of its specified
properties.

The shared state guarded by the mutex (`struct Inner`) is modelled as a
structure over `List`; the receiver's consumer-private batch buffer
(`Receiver::buffer`) is a second list.  Every public operation of the
source is translated as a pure state-passing function.  Condition
variable notifications (`notify_one` / `notify_all`) are made explicit
as a `Wake` output so that the waking semantics can be stated.
-/

namespace Channel

/-- The condition-variable signal an operation issues:
no call, `notify_one`, or `notify_all`. -/
inductive Wake where
  | noWake
  | notifyOne
  | notifyAll
deriving DecidableEq, Repr

/-- `struct Inner<T>` of the source: the state protected by the mutex. -/
structure Inner (T : Type) where
  queue : List T
  senders : Nat
  disconnected : Bool
deriving DecidableEq, Repr

/-- `Inner::new`: empty queue, one sender, not disconnected. -/
def Inner.new (T : Type) : Inner T :=
  ⟨[], 1, false⟩

/-- The whole channel state: the shared `Inner` plus the receiver's
consumer-private local buffer (`Receiver::buffer`). -/
structure State (T : Type) where
  inner : Inner T
  buffer : List T
deriving DecidableEq, Repr

/-- `channel()`: initial state produced by the channel factory. -/
def channelInit (T : Type) : State T :=
  ⟨Inner.new T, []⟩

/-- `pub struct SendError<T>(pub T)`. -/
structure SendError (T : Type) where
  val : T
deriving DecidableEq, Repr

/-- `pub enum TryRecvError { Empty, Disconnected }`. -/
inductive TryRecvError where
  | Empty
  | Disconnected
deriving DecidableEq, Repr

/-- `pub struct RecvError`. -/
inductive RecvError where
  | mk
deriving DecidableEq, Repr

/-- Output of `Sender::send`: the returned `Result`, the updated state
and the condvar signal issued. -/
structure SendOut (T : Type) where
  result : Except (SendError T) Unit
  state : State T
  wake : Wake

/-- `Sender::send`: under the lock, if `disconnected` return the value
back in `Err(SendError(t))`; otherwise push `t` on the back of the queue
and `notify_one` exactly when the queue length just became 1. -/
def send (s : State T) (t : T) : SendOut T :=
  if s.inner.disconnected then
    ⟨Except.error ⟨t⟩, s, Wake.noWake⟩
  else
    let q := s.inner.queue ++ [t]
    ⟨Except.ok (), ⟨⟨q, s.inner.senders, s.inner.disconnected⟩, s.buffer⟩,
      if q.length = 1 then Wake.notifyOne else Wake.noWake⟩

/-- `impl Clone for Sender`: under the lock, `senders += 1`.  No
condvar call occurs in the source. -/
def cloneSender (s : State T) : State T :=
  ⟨⟨s.inner.queue, s.inner.senders + 1, s.inner.disconnected⟩, s.buffer⟩

/-- Output of `Drop for Sender`: updated state and condvar signal. -/
structure DropOut (T : Type) where
  state : State T
  wake : Wake

/-- `impl Drop for Sender`: under the lock, `senders -= 1`, set
`disconnected = (senders == 0)`, and `notify_all` when it became true. -/
def dropSender (s : State T) : DropOut T :=
  let n := s.inner.senders - 1
  let d := n = 0
  ⟨⟨⟨s.inner.queue, n, d⟩, s.buffer⟩,
    if d then Wake.notifyAll else Wake.noWake⟩

/-- Outcome of one call to `Receiver::recv`: a value with the new
state, `Err(RecvError)` with the (unchanged) state, or the call blocks
on the condition variable (`condvar.wait`). -/
inductive RecvResult (T : Type) where
  | ok : T → State T → RecvResult T
  | error : State T → RecvResult T
  | blocked : State T → RecvResult T
deriving DecidableEq, Repr

/-- `Receiver::recv`: pop the local buffer without the lock if it is
non-empty; otherwise lock the shared state and pop its queue, swapping
the remaining queue with the (empty) local buffer on success
(`mem::swap(self.get_buffer(), &mut inner.queue)`); if the queue is
empty, fail when disconnected, else wait on the condition variable. -/
def recv (s : State T) : RecvResult T :=
  match s.buffer with
  | t :: rest => RecvResult.ok t ⟨s.inner, rest⟩
  | [] =>
    match s.inner.queue with
    | t :: rest =>
      RecvResult.ok t ⟨⟨[], s.inner.senders, s.inner.disconnected⟩, rest⟩
    | [] =>
      if s.inner.disconnected then RecvResult.error s
      else RecvResult.blocked s

/-- `Receiver::try_recv`: identical to `recv` except that the
empty-and-connected case returns `Err(TryRecvError::Empty)` instead of
waiting. -/
def try_recv (s : State T) : Except TryRecvError T × State T :=
  match s.buffer with
  | t :: rest => (Except.ok t, ⟨s.inner, rest⟩)
  | [] =>
    match s.inner.queue with
    | t :: rest =>
      (Except.ok t, ⟨⟨[], s.inner.senders, s.inner.disconnected⟩, rest⟩)
    | [] =>
      if s.inner.disconnected then (Except.error TryRecvError.Disconnected, s)
      else (Except.error TryRecvError.Empty, s)

/-- Send a whole list of values through the single original sender,
returning the final state. -/
def sendAll (s : State T) : List T → State T
  | [] => s
  | t :: ts => sendAll (send s t).state ts

/-- One receive call, either blocking (`recv`) or non-blocking
(`try_recv`), reduced to the common observation: `some v` when the call
returns `Ok(v)`, `none` when it fails (or would block). -/
def recvAny (blocking : Bool) (s : State T) : Option T × State T :=
  if blocking then
    match recv s with
    | RecvResult.ok t s2 => (some t, s2)
    | RecvResult.error s2 => (none, s2)
    | RecvResult.blocked s2 => (none, s2)
  else
    match try_recv s with
    | (Except.ok t, s2) => (some t, s2)
    | (Except.error _, s2) => (none, s2)

/-- The observations of a sequence of receive calls, each chosen to be
`recv` (`true`) or `try_recv` (`false`). -/
def recvSeq (s : State T) : List Bool → List (Option T)
  | [] => []
  | b :: bs =>
    let r := recvAny b s
    r.1 :: recvSeq r.2 bs

/-- The trace of `n` consecutive `recv` calls (stopping if one would
block, since a blocked call never returns). -/
def recvTrace (s : State T) : Nat → List (Except RecvError T)
  | 0 => []
  | Nat.succ n =>
    match recv s with
    | RecvResult.ok t s2 => Except.ok t :: recvTrace s2 n
    | RecvResult.error s2 => Except.error RecvError.mk :: recvTrace s2 n
    | RecvResult.blocked _ => []

/-- The trace of `n` consecutive `try_recv` calls. -/
def tryRecvTrace (s : State T) : Nat → List (Except TryRecvError T)
  | 0 => []
  | Nat.succ n =>
    let r := try_recv s
    r.1 :: tryRecvTrace r.2 n

/-- All values currently held by the channel, in the order the consumer
will observe them: the local buffer in front of the shared queue. -/
def contents (s : State T) : List T :=
  s.buffer ++ s.inner.queue

/-- The operations a client can perform on a channel. -/
inductive Op (T : Type) where
  | send : T → Op T
  | clone
  | drop
  | recv
  | tryRecv

/-- The state after one operation. -/
def applyOp (s : State T) : Op T → State T
  | Op.send t => (send s t).state
  | Op.clone => cloneSender s
  | Op.drop => (dropSender s).state
  | Op.recv =>
    match recv s with
    | RecvResult.ok _ s2 => s2
    | RecvResult.error s2 => s2
    | RecvResult.blocked s2 => s2
  | Op.tryRecv => (try_recv s).2

/-- The condvar signal one operation issues.  `Sender::clone`,
`Receiver::recv` and `Receiver::try_recv` contain no `notify_one` or
`notify_all` call in the source. -/
def opWake (s : State T) : Op T → Wake
  | Op.send t => (send s t).wake
  | Op.clone => Wake.noWake
  | Op.drop => (dropSender s).wake
  | Op.recv => Wake.noWake
  | Op.tryRecv => Wake.noWake

/-- The states reachable from `channel()` by client operations.
`send`, `clone` and `drop` are performed through a live `Sender`
handle, so they require at least one live sender. -/
inductive Reachable (T : Type) : State T → Prop where
  | init : Reachable T (channelInit T)
  | send (s : State T) (t : T) : Reachable T s → 1 ≤ s.inner.senders →
      Reachable T (applyOp s (Op.send t))
  | clone (s : State T) : Reachable T s → 1 ≤ s.inner.senders →
      Reachable T (applyOp s Op.clone)
  | drop (s : State T) : Reachable T s → 1 ≤ s.inner.senders →
      Reachable T (applyOp s Op.drop)
  | recv (s : State T) : Reachable T s → Reachable T (applyOp s Op.recv)
  | tryRecv (s : State T) : Reachable T s → Reachable T (applyOp s Op.tryRecv)

/-! ### Helper lemmas -/

/-- A receive call (blocking or not) on a channel holding `v :: vs`
returns `v` and leaves exactly `vs` behind. -/
theorem recvAny_cons (b : Bool) (s : State T) (v : T) (vs : List T)
    (h : contents s = v :: vs) :
    (recvAny b s).1 = some v ∧ contents (recvAny b s).2 = vs := by
  rcases s with ⟨⟨q, n, d⟩, buf⟩
  cases buf with
  | cons t rest =>
    simp [contents] at h
    cases b <;> simp [recvAny, recv, try_recv, contents, h.1, h.2]
  | nil =>
    cases q with
    | nil => simp [contents] at h
    | cons t rest =>
      simp [contents] at h
      cases b <;> simp [recvAny, recv, try_recv, contents, h.1, h.2]

/-- Any sequence of receive calls, as long as the channel has values,
observes exactly the channel's contents in order. -/
theorem recvSeq_contents : ∀ (bs : List Bool) (s : State T),
    bs.length = (contents s).length →
    recvSeq s bs = (contents s).map some := by
  intro bs
  induction bs with
  | nil =>
    intro s h
    have hc : contents s = [] := List.length_eq_zero.mp h.symm
    simp [recvSeq, hc]
  | cons b bs ih =>
    intro s h
    cases hc : contents s with
    | nil => rw [hc] at h; simp at h
    | cons v vs =>
      obtain ⟨h1, h2⟩ := recvAny_cons b s v vs hc
      rw [hc] at h
      simp only [List.length_cons, Nat.succ.injEq] at h
      have hrec := ih (recvAny b s).2 (by rw [h2]; exact h)
      simp [recvSeq, h1, hrec, h2]

/-- Sending a list of values through an open channel appends the list
to the shared queue and touches nothing else. -/
theorem sendAll_open : ∀ (vs : List T) (s : State T),
    s.inner.disconnected = false →
    sendAll s vs = ⟨⟨s.inner.queue ++ vs, s.inner.senders, false⟩, s.buffer⟩ := by
  intro vs
  induction vs with
  | nil =>
    intro s h
    rcases s with ⟨⟨q, n, d⟩, buf⟩
    simp only at h
    subst h
    simp [sendAll]
  | cons t ts ih =>
    intro s h
    rcases s with ⟨⟨q, n, d⟩, buf⟩
    simp only at h
    subst h
    simp only [sendAll, send]
    rw [ih]
    · simp
    · rfl

/-- The `disconnected` flag holds in a reachable state exactly when the
sender count is zero. -/
theorem reachable_inv {T : Type} {s : State T} (h : Reachable T s) :
    s.inner.disconnected = true ↔ s.inner.senders = 0 := by
  induction h with
  | init => simp [channelInit, Inner.new]
  | send s t _ hs ih =>
    rcases s with ⟨⟨q, n, d⟩, buf⟩
    cases d <;> simp_all [applyOp, send]
  | clone s _ hs ih =>
    rcases s with ⟨⟨q, n, d⟩, buf⟩
    cases d <;> simp_all [applyOp, cloneSender]
  | drop s _ hs ih =>
    rcases s with ⟨⟨q, n, d⟩, buf⟩
    simp [applyOp, dropSender]
  | recv s _ ih =>
    rcases s with ⟨⟨q, n, d⟩, buf⟩
    cases buf <;> cases q <;> cases d <;> simp_all [applyOp, recv]
  | tryRecv s _ ih =>
    rcases s with ⟨⟨q, n, d⟩, buf⟩
    cases buf <;> cases q <;> cases d <;> simp_all [applyOp, try_recv]

/-! ### Claim theorems -/

/-- C1 (FIFO delivery): after sending `v1, …, vn` through the single
original sender of a fresh channel, any `n` receive calls — each either
`recv` or `try_recv` — return `Ok(v1), …, Ok(vn)` in exactly that
order. -/
theorem fifo_delivery (T : Type) (vs : List T) (bs : List Bool)
    (hb : bs.length = vs.length) :
    recvSeq (sendAll (channelInit T) vs) bs = vs.map some := by
  have hst := sendAll_open vs (channelInit T) rfl
  have hc : contents (sendAll (channelInit T) vs) = vs := by
    rw [hst]; simp [contents, channelInit, Inner.new]
  rw [recvSeq_contents bs _ (by rw [hc]; exact hb), hc]

/-- C1 witness: send `1, 2, 3`; three receives return `1`, `2`, `3`. -/
theorem fifo_delivery_witness :
    recvSeq (sendAll (channelInit Nat) [1, 2, 3]) [true, true, true]
      = [some 1, some 2, some 3] :=
  fifo_delivery Nat [1, 2, 3] [true, true, true] rfl

/-- C2 (state invariant): in every state reachable from `channel()` by
send, clone, drop, recv and try_recv operations, `disconnected` holds
exactly when the number of live senders is zero. -/
theorem disconnected_iff_senders_zero {T : Type} (s : State T)
    (h : Reachable T s) :
    s.inner.disconnected = true ↔ s.inner.senders = 0 :=
  reachable_inv h

/-- C2 witness: the state after dropping the original sender of a fresh
channel satisfies the invariant. -/
theorem disconnected_iff_senders_zero_witness :
    (applyOp (channelInit Nat) Op.drop).inner.disconnected = true ↔
      (applyOp (channelInit Nat) Op.drop).inner.senders = 0 :=
  disconnected_iff_senders_zero _
    (Reachable.drop _ Reachable.init (by decide))

/-- C3 (batch transfer): when the local buffer is empty and the shared
queue holds `t :: rest`, both `recv` and `try_recv` return `Ok t`, the
local buffer afterwards holds exactly `rest` in order, the shared queue
is left empty, and `senders`/`disconnected` are unchanged. -/
theorem batch_transfer (s : State T) (t : T) (rest : List T)
    (hb : s.buffer = []) (hq : s.inner.queue = t :: rest) :
    recv s = RecvResult.ok t
        ⟨⟨[], s.inner.senders, s.inner.disconnected⟩, rest⟩ ∧
    try_recv s = (Except.ok t,
        ⟨⟨[], s.inner.senders, s.inner.disconnected⟩, rest⟩) := by
  rcases s with ⟨⟨q, n, d⟩, buf⟩
  simp only at hb hq
  subst hb hq
  exact ⟨rfl, rfl⟩

/-- C3 witness: buffer empty, queue `[1, 2, 3]`. -/
theorem batch_transfer_witness :
    recv (⟨⟨[1, 2, 3], 2, false⟩, []⟩ : State Nat)
        = RecvResult.ok 1 ⟨⟨[], 2, false⟩, [2, 3]⟩ ∧
    try_recv (⟨⟨[1, 2, 3], 2, false⟩, []⟩ : State Nat)
        = (Except.ok 1, ⟨⟨[], 2, false⟩, [2, 3]⟩) :=
  batch_transfer ⟨⟨[1, 2, 3], 2, false⟩, []⟩ 1 [2, 3] rfl rfl

/-- C4 (disconnection visibility): with an empty buffer, an empty queue
and `disconnected` set, `recv` fails with `RecvError` and `try_recv`
with `TryRecvError::Disconnected`, the state is unchanged, and every
number of subsequent calls fails the same way. -/
theorem disconnected_forever (s : State T) (hb : s.buffer = [])
    (hq : s.inner.queue = []) (hd : s.inner.disconnected = true) :
    recv s = RecvResult.error s ∧
    try_recv s = (Except.error TryRecvError.Disconnected, s) ∧
    (∀ n, recvTrace s n = List.replicate n (Except.error RecvError.mk)) ∧
    (∀ n, tryRecvTrace s n
        = List.replicate n (Except.error TryRecvError.Disconnected)) := by
  rcases s with ⟨⟨q, n, d⟩, buf⟩
  simp only at hb hq hd
  subst hb hq hd
  refine ⟨rfl, rfl, ?_, ?_⟩
  · intro n
    induction n with
    | zero => rfl
    | succ n ih => simp [recvTrace, recv, ih, List.replicate_succ]
  · intro n
    induction n with
    | zero => rfl
    | succ n ih => simp [tryRecvTrace, try_recv, ih, List.replicate_succ]

/-- C4 witness: a fully drained disconnected channel fails two
consecutive calls of each kind. -/
theorem disconnected_forever_witness :
    recvTrace (⟨⟨[], 0, true⟩, []⟩ : State Nat) 2
        = List.replicate 2 (Except.error RecvError.mk) ∧
    tryRecvTrace (⟨⟨[], 0, true⟩, []⟩ : State Nat) 2
        = List.replicate 2 (Except.error TryRecvError.Disconnected) :=
  ⟨(disconnected_forever ⟨⟨[], 0, true⟩, []⟩ rfl rfl rfl).2.2.1 2,
   (disconnected_forever ⟨⟨[], 0, true⟩, []⟩ rfl rfl rfl).2.2.2 2⟩

/-- C5 (drain-before-disconnect): in a disconnected state still holding
`k` values (local buffer then shared queue), the next `k` receive calls
— any mix of `recv` and `try_recv` — succeed and return those values in
FIFO order. -/
theorem drain_before_disconnect (s : State T) (bs : List Bool)
    (_hd : s.inner.disconnected = true)
    (hb : bs.length = (contents s).length) :
    recvSeq s bs = (contents s).map some :=
  recvSeq_contents bs s hb

/-- C5 witness: disconnected state with buffer `[1]` and queue
`[2, 3]`; three receives return `1`, `2`, `3`. -/
theorem drain_before_disconnect_witness :
    recvSeq (⟨⟨[2, 3], 0, true⟩, [1]⟩ : State Nat) [true, false, true]
      = [some 1, some 2, some 3] :=
  drain_before_disconnect ⟨⟨[2, 3], 0, true⟩, [1]⟩ [true, false, true]
    rfl rfl

/-- C6 (send failure semantics): when disconnected, `send t` returns
`Err(SendError(t))` carrying back exactly `t` and changes nothing
(including issuing no wake); when connected, it returns `Ok(())` and
appends `t` to the tail of the queue, leaving the other fields as they
were. -/
theorem send_semantics (s : State T) (t : T) :
    (s.inner.disconnected = true →
      send s t = ⟨Except.error ⟨t⟩, s, Wake.noWake⟩) ∧
    (s.inner.disconnected = false →
      (send s t).result = Except.ok () ∧
      (send s t).state
        = ⟨⟨s.inner.queue ++ [t], s.inner.senders, false⟩, s.buffer⟩) := by
  constructor
  · intro h; simp [send, h]
  · intro h; simp [send, h]

/-- C6 witness: a disconnected send returns the value back unchanged;
an open send appends to the queue. -/
theorem send_semantics_witness :
    send (⟨⟨[], 0, true⟩, []⟩ : State Nat) 5
        = ⟨Except.error ⟨5⟩, ⟨⟨[], 0, true⟩, []⟩, Wake.noWake⟩ ∧
    (send (⟨⟨[7], 1, false⟩, []⟩ : State Nat) 5).state
        = ⟨⟨[7, 5], 1, false⟩, []⟩ :=
  ⟨(send_semantics ⟨⟨[], 0, true⟩, []⟩ 5).1 rfl,
   ((send_semantics ⟨⟨[7], 1, false⟩, []⟩ 5).2 rfl).2⟩

/-- C7 (lock-free fast path): when the local buffer holds `t :: rest`,
both `recv` and `try_recv` return `Ok t`, drop only that element from
the buffer and leave the whole shared state untouched, whatever its
queue, sender count or disconnected flag. -/
theorem lockfree_fast_path (s : State T) (t : T) (rest : List T)
    (hb : s.buffer = t :: rest) :
    recv s = RecvResult.ok t ⟨s.inner, rest⟩ ∧
    try_recv s = (Except.ok t, ⟨s.inner, rest⟩) := by
  rcases s with ⟨inner, buf⟩
  simp only at hb
  subst hb
  exact ⟨rfl, rfl⟩

/-- C7 witness: buffered value `1` is returned even though the channel
is disconnected, with the shared state untouched. -/
theorem lockfree_fast_path_witness :
    recv (⟨⟨[9], 0, true⟩, [1, 2]⟩ : State Nat)
        = RecvResult.ok 1 ⟨⟨[9], 0, true⟩, [2]⟩ ∧
    try_recv (⟨⟨[9], 0, true⟩, [1, 2]⟩ : State Nat)
        = (Except.ok 1, ⟨⟨[9], 0, true⟩, [2]⟩) :=
  lockfree_fast_path ⟨⟨[9], 0, true⟩, [1, 2]⟩ 1 [2] rfl

/-- C8 (non-blocking empty receive): with buffer and queue empty and
the channel still open, `try_recv` returns `Err(TryRecvError::Empty)`
and changes nothing; the failure is transient: after any send, a retry
returns that value. -/
theorem try_recv_empty_open (s : State T) (hb : s.buffer = [])
    (hq : s.inner.queue = []) (hd : s.inner.disconnected = false) :
    try_recv s = (Except.error TryRecvError.Empty, s) ∧
    ∀ t, (try_recv (send s t).state).1 = Except.ok t := by
  rcases s with ⟨⟨q, n, d⟩, buf⟩
  simp only at hb hq hd
  subst hb hq hd
  exact ⟨rfl, fun t => rfl⟩

/-- C8 witness: a fresh channel is `Empty`; after sending `4` a retry
returns `4`. -/
theorem try_recv_empty_open_witness :
    try_recv (channelInit Nat)
        = (Except.error TryRecvError.Empty, channelInit Nat) ∧
    (try_recv (send (channelInit Nat) 4).state).1 = Except.ok 4 :=
  ⟨(try_recv_empty_open (channelInit Nat) rfl rfl rfl).1,
   (try_recv_empty_open (channelInit Nat) rfl rfl rfl).2 4⟩

/-- C9 (waking semantics): an operation issues `notify_one` exactly
when it is a send on an open channel whose queue was empty (so the push
made the length 1), and `notify_all` exactly when it is the drop of the
last sender; clone, recv and try_recv never signal. -/
theorem waking_semantics (s : State T) (op : Op T)
    (hs : 1 ≤ s.inner.senders) :
    (opWake s op = Wake.notifyOne ↔
      ∃ t, op = Op.send t ∧ s.inner.disconnected = false ∧
        s.inner.queue = []) ∧
    (opWake s op = Wake.notifyAll ↔
      op = Op.drop ∧ s.inner.senders = 1) := by
  rcases s with ⟨⟨q, n, d⟩, buf⟩
  simp only at hs
  cases op with
  | send t =>
    cases d
    · cases q <;> simp [opWake, send]
    · simp [opWake, send]
  | clone => simp [opWake]
  | drop =>
    by_cases hn : n - 1 = 0 <;> simp [opWake, dropSender, hn] <;> omega
  | recv => simp [opWake]
  | tryRecv => simp [opWake]

/-- C9 witness: a first send on a fresh channel signals `notify_one`;
dropping its only sender signals `notify_all`. -/
theorem waking_semantics_witness :
    opWake (channelInit Nat) (Op.send 1) = Wake.notifyOne ∧
    opWake (channelInit Nat) Op.drop = Wake.notifyAll :=
  ⟨(waking_semantics (channelInit Nat) (Op.send 1) (by decide)).1.mpr
      ⟨1, rfl, rfl, rfl⟩,
   (waking_semantics (channelInit Nat) Op.drop (by decide)).2.mpr
      ⟨rfl, rfl⟩⟩

/-- C10 (send cannot fail): in every reachable state where at least one
sender handle is live — which is the case whenever `send` can be called
at all — `send` returns `Ok(())`; the `Err(SendError)` branch is
unreachable. -/
theorem send_cannot_fail {T : Type} (s : State T) (t : T)
    (h : Reachable T s) (hs : 1 ≤ s.inner.senders) :
    (send s t).result = Except.ok () := by
  have hd : s.inner.disconnected = false := by
    cases hdd : s.inner.disconnected
    · rfl
    · have h0 := (reachable_inv h).mp hdd
      omega
  simp [send, hd]

/-- C10 witness: sending on the fresh channel succeeds. -/
theorem send_cannot_fail_witness :
    (send (channelInit Nat) 7).result = Except.ok () :=
  send_cannot_fail (channelInit Nat) 7 Reachable.init (by decide)

end Channel
